import Mathlib

/-!
Verification of the POAV (pi-orbital-axis-vector) analysis engine of
scikit-nano, `sknano/core/atoms/_poav_atom.py`, against its specification.

The Python classes `POAV`, `POAV1`, `POAV2`, `POAVR`, and the attachment
mixin `POAVAtomMixin`/`POAVAtom` are shallowly embedded below.  Machine
floats are modelled by exact reals; `x / 0 = 0` is Lean's convention for
division by zero and stands in for numpy's non-raising Inf/NaN results
wherever the Python code divides without a guard.  Operations that can
raise in Python are embedded as `Option`/`Except` valued functions.
-/

namespace SkNano

noncomputable section

/-- 3-component real vector, the `Vector` objects of `sknano.core.math`. -/
structure V3 where
  x : ℝ
  y : ℝ
  z : ℝ

namespace V3

/-- Componentwise sum, numpy vector addition. -/
def add (u v : V3) : V3 := ⟨u.x + v.x, u.y + v.y, u.z + v.z⟩

instance : Add V3 := ⟨add⟩

/-- Scalar multiple, numpy `c * v`. -/
def smul (c : ℝ) (v : V3) : V3 := ⟨c * v.x, c * v.y, c * v.z⟩

/-- Division of a vector by a scalar, numpy `v / c` (componentwise). -/
def sdiv (v : V3) (c : ℝ) : V3 := ⟨v.x / c, v.y / c, v.z / c⟩

/-- The zero vector. -/
def zero : V3 := ⟨0, 0, 0⟩

/-- Dot product. -/
def dot (u v : V3) : ℝ := u.x * v.x + u.y * v.y + u.z * v.z

/-- Cross product, `vec.cross` of `sknano.core.math`. -/
def cross (u v : V3) : V3 :=
  ⟨u.y * v.z - u.z * v.y, u.z * v.x - u.x * v.z, u.x * v.y - u.y * v.x⟩

/-- Scalar triple product `u . (v x w)`, `vec.scalar_triple_product`. -/
def stp (u v w : V3) : ℝ := dot u (cross v w)

/-- Euclidean magnitude of a vector, the `length` of a bond vector. -/
def mag (v : V3) : ℝ := Real.sqrt (v.x ^ 2 + v.y ^ 2 + v.z ^ 2)

/-- Unit vector `v / |v|`, the `unit_vector` property. -/
def unit (v : V3) : V3 := sdiv v (mag v)

@[simp] theorem add_def (u v : V3) :
    u + v = ⟨u.x + v.x, u.y + v.y, u.z + v.z⟩ := rfl

end V3

/-- Exceptions raised by the embedded Python code.  The source raises
`TypeError` both from the angle-array setters and from the attachment-slot
setters (the spec calls these ShapeError / TypeMismatchError). -/
inductive PyError where
  | typeError : PyError
deriving DecidableEq

/-- Runtime values that callers assign to the angle-array attributes:
either a Python list of floats or some non-list value (a number). -/
inductive PyVal where
  | num : ℝ → PyVal
  | list : List ℝ → PyVal

/-- State of a `POAV` object: raw bond vectors `b1..b3`, representative
vectors `v1..v3` (the `_v1.._v3` attributes), the `_T` attribute, and the
three angle-array attributes (`None` until externally assigned). -/
structure POAV where
  b1 : V3
  b2 : V3
  b3 : V3
  v1 : V3
  v2 : V3
  v3 : V3
  T : ℝ
  sigma_pi_angles : Option (List ℝ)
  pyramidalization_angles : Option (List ℝ)
  misalignment_angles : Option (List ℝ)

namespace POAV

/-- `POAV.__init__`: store the three bond vectors, default the
representative vectors to them, and set
`_T = scalar_triple_product(V1, V2, V3) / 6` on unit bond vectors. -/
def init (b1 b2 b3 : V3) : POAV :=
  { b1 := b1, b2 := b2, b3 := b3,
    v1 := b1, v2 := b2, v3 := b3,
    T := V3.stp b1.unit b2.unit b3.unit / 6,
    sigma_pi_angles := none,
    pyramidalization_angles := none,
    misalignment_angles := none }

/-- Property `t`: scalar triple product of the representative vectors. -/
def t (p : POAV) : ℝ := V3.stp p.v1 p.v2 p.v3

/-- Property `reciprocal_v1 = cross(v2, v3)`. -/
def reciprocal_v1 (p : POAV) : V3 := V3.cross p.v2 p.v3

/-- Property `reciprocal_v2 = cross(v3, v1)`. -/
def reciprocal_v2 (p : POAV) : V3 := V3.cross p.v3 p.v1

/-- Property `reciprocal_v3 = cross(v1, v2)`. -/
def reciprocal_v3 (p : POAV) : V3 := V3.cross p.v1 p.v2

/-- Property `vpi`: sum of the reciprocal vectors divided by `t`.  The
source performs this division with no degeneracy guard. -/
def vpi (p : POAV) : V3 :=
  V3.sdiv (p.reciprocal_v1 + p.reciprocal_v2 + p.reciprocal_v3) p.t

/-- Property `Vpi`: unit vector of `vpi`. -/
def Vpi (p : POAV) : V3 := p.vpi.unit

/-- Property `V1`: unit vector of bond 1. -/
def V1 (p : POAV) : V3 := p.b1.unit

/-- Property `V2`: unit vector of bond 2. -/
def V2 (p : POAV) : V3 := p.b2.unit

/-- Property `V3u`: unit vector of bond 3 (`V3` in the source; renamed to
avoid clashing with the vector type). -/
def V3u (p : POAV) : V3 := p.b3.unit

/-- Property `R1`: length of bond 1. -/
def R1 (p : POAV) : ℝ := p.b1.mag

/-- Property `R2`: length of bond 2. -/
def R2 (p : POAV) : ℝ := p.b2.mag

/-- Property `R3`: length of bond 3. -/
def R3 (p : POAV) : ℝ := p.b3.mag

/-- Property `A`: magnitude of `vpi`. -/
def A (p : POAV) : ℝ := p.vpi.mag

/-- Property `H = 3 * T / A`. -/
def H (p : POAV) : ℝ := 3 * p.T / p.A

/-- Setter of `sigma_pi_angles`: raises `TypeError` unless the assigned
value is a list; any list is stored as-is. -/
def set_sigma_pi_angles (p : POAV) (value : PyVal) : Except PyError POAV :=
  match value with
  | .list l => .ok { p with sigma_pi_angles := some l }
  | _ => .error .typeError

/-- Setter of `pyramidalization_angles`: raises `TypeError` unless the
assigned value is a list; any list is stored as-is. -/
def set_pyramidalization_angles (p : POAV) (value : PyVal) : Except PyError POAV :=
  match value with
  | .list l => .ok { p with pyramidalization_angles := some l }
  | _ => .error .typeError

/-- Setter of `misalignment_angles`: raises `TypeError` unless the
assigned value is a list; any list is stored as-is. -/
def set_misalignment_angles (p : POAV) (value : PyVal) : Except PyError POAV :=
  match value with
  | .list l => .ok { p with misalignment_angles := some l }
  | _ => .error .typeError

end POAV

/-- `np.degrees` applied elementwise: radians times `180 / pi`. -/
def degreesList (l : List ℝ) : List ℝ := l.map fun r => r * (180 / Real.pi)

/-- The mapping returned by `POAV.todict`. -/
structure POAVDict where
  bond1 : ℝ
  bond2 : ℝ
  bond3 : ℝ
  sigma_pi_angle1 : ℝ
  sigma_pi_angle2 : ℝ
  sigma_pi_angle3 : ℝ
  pyramidalization_angle1 : ℝ
  pyramidalization_angle2 : ℝ
  pyramidalization_angle3 : ℝ
  misalignment_angle1 : ℝ
  misalignment_angle2 : ℝ
  misalignment_angle3 : ℝ
  T : ℝ
  H : ℝ
  A : ℝ

/-- First three elements of a list (Python `l[0], l[1], l[2]`), failing
(Python raises `IndexError`) when the list has fewer than three. -/
def first3 (l : List ℝ) : Option (ℝ × ℝ × ℝ) :=
  match l with
  | a :: b :: c :: _ => some (a, b, c)
  | _ => none

/-- `POAV.todict(rad2deg)`: fails (Python raises) when any angle array is
still `None` or has fewer than 3 entries; otherwise exports the bond
lengths, the three components of each angle array (converted to degrees
when `rad2deg`), and `T`, `H`, `A`. -/
def POAV.todict (p : POAV) (rad2deg : Bool) : Option POAVDict :=
  match p.sigma_pi_angles, p.pyramidalization_angles, p.misalignment_angles with
  | some s0, some q0, some m0 =>
    let s := if rad2deg then degreesList s0 else s0
    let q := if rad2deg then degreesList q0 else q0
    let mm := if rad2deg then degreesList m0 else m0
    match first3 s, first3 q, first3 mm with
    | some (s1, s2, s3), some (q1, q2, q3), some (m1, m2, m3) =>
      some { bond1 := p.b1.mag, bond2 := p.b2.mag, bond3 := p.b3.mag,
             sigma_pi_angle1 := s1, sigma_pi_angle2 := s2, sigma_pi_angle3 := s3,
             pyramidalization_angle1 := q1, pyramidalization_angle2 := q2,
             pyramidalization_angle3 := q3,
             misalignment_angle1 := m1, misalignment_angle2 := m2,
             misalignment_angle3 := m3,
             T := p.T, H := p.H, A := p.A }
    | _, _, _ => none
  | _, _, _ => none

namespace POAV1

/-- `POAV1.__init__`: run the base constructor, then override the
representative vectors with the unit bond vectors `V1, V2, V3`. -/
def init (b1 b2 b3 : V3) : POAV :=
  let p := POAV.init b1 b2 b3
  { p with v1 := p.V1, v2 := p.V2, v3 := p.V3u }

/-- `POAV1.m`: fails (Python raises from `np.mean(None)`) when
`sigma_pi_angles` is unset; otherwise
`2 cos^2(mean) / (1 - 3 cos^2(mean))`. -/
def m (p : POAV) : Option ℝ :=
  p.sigma_pi_angles.map fun l =>
    let cos2sigmapi := Real.cos (l.sum / (l.length : ℝ)) ^ 2
    2 * cos2sigmapi / (1 - 3 * cos2sigmapi)

/-- `POAV1.n = 3 * m + 2`. -/
def n (p : POAV) : Option ℝ := (m p).map fun mv => 3 * mv + 2

end POAV1

/-- The mapping returned by `POAV1.todict`: the base mapping plus `m`, `n`. -/
structure POAV1Dict where
  base : POAVDict
  m : ℝ
  n : ℝ

/-- `POAV1.todict`: the base mapping updated with `m` and `n`. -/
def POAV1.todict (p : POAV) (rad2deg : Bool) : Option POAV1Dict :=
  match p.todict rad2deg, POAV1.m p, POAV1.n p with
  | some d, some mv, some nv => some { base := d, m := mv, n := nv }
  | _, _, _ => none

/-- State of a `POAV2` object: the base state plus the stored cosines
`cosa12 = cos(bond_angles[0])`, `cosa13 = cos(bond_angles[1])`,
`cosa23 = cos(bond_angles[2])`. -/
structure POAV2 where
  base : POAV
  cosa12 : ℝ
  cosa13 : ℝ
  cosa23 : ℝ

namespace POAV2

/-- `POAV2.__init__` from the three bond vectors and the bonds' three
pairwise angles `(bond_angles[0], bond_angles[1], bond_angles[2])`.

The `Bonds` collaborator supplying `angles` and `bond_angle_pairs` is not
part of the analyzed sources.  Modelled from the spec: for bond `i` the
representative vector is `cos(angle between the OTHER two bonds)` times
the unit bond vector, with the stored cosines named by bond pair
(`cosa12, cosa13, cosa23`).  `_T` is
`-(cos a1 * cos a2 * cos a3) * T0` exactly as in the source. -/
def init (b1 b2 b3 : V3) (a1 a2 a3 : ℝ) : POAV2 :=
  let p := POAV.init b1 b2 b3
  let c12 := Real.cos a1
  let c13 := Real.cos a2
  let c23 := Real.cos a3
  { base := { p with
      v1 := V3.smul c23 p.V1,
      v2 := V3.smul c13 p.V2,
      v3 := V3.smul c12 p.V3u,
      T := -(c12 * c13 * c23) * p.T },
    cosa12 := c12, cosa13 := c13, cosa23 := c23 }

/-- `POAV2.n1 = -cosa23 / (cosa12 * cosa13)`, unguarded division. -/
def n1 (q : POAV2) : ℝ := -q.cosa23 / (q.cosa12 * q.cosa13)

/-- `POAV2.n2 = -cosa13 / (cosa12 * cosa23)`, unguarded division. -/
def n2 (q : POAV2) : ℝ := -q.cosa13 / (q.cosa12 * q.cosa23)

/-- `POAV2.n3 = -cosa12 / (cosa23 * cosa13)`, unguarded division. -/
def n3 (q : POAV2) : ℝ := -q.cosa12 / (q.cosa23 * q.cosa13)

/-- `POAV2.m = 1 / (1/(1+n1) + 1/(1+n2) + 1/(1+n3)) - 1`. -/
def m (q : POAV2) : ℝ :=
  let s1 := 1 / (1 + q.n1)
  let s2 := 1 / (1 + q.n2)
  let s3 := 1 / (1 + q.n3)
  1 / (s1 + s2 + s3) - 1

end POAV2

/-- The mapping returned by `POAV2.todict`: the base mapping plus
`m, n1, n2, n3`. -/
structure POAV2Dict where
  base : POAVDict
  m : ℝ
  n1 : ℝ
  n2 : ℝ
  n3 : ℝ

/-- `POAV2.todict`: the base mapping updated with `m, n1, n2, n3`. -/
def POAV2.todict (q : POAV2) (rad2deg : Bool) : Option POAV2Dict :=
  (q.base.todict rad2deg).map fun d =>
    { base := d, m := q.m, n1 := q.n1, n2 := q.n2, n3 := q.n3 }

/-- `POAVR.__init__`: run the base constructor, then set
`v_i = R_i * V_i` and `_T = R1 * R2 * R3 * T`. -/
def POAVR.init (b1 b2 b3 : V3) : POAV :=
  let p := POAV.init b1 b2 b3
  { p with
    v1 := V3.smul p.R1 p.V1,
    v2 := V3.smul p.R2 p.V2,
    v3 := V3.smul p.R3 p.V3u,
    T := p.R1 * p.R2 * p.R3 * p.T }

/-- A value held in one of the attachment slots, tagged by the runtime
class of the analysis result (`isinstance` checks see only this tag). -/
inductive POAVResult where
  | poav1 : POAV → POAVResult
  | poav2 : POAV2 → POAVResult
  | poavr : POAV → POAVResult

/-- `isinstance(value, POAV1)`. -/
def POAVResult.isPOAV1 : POAVResult → Bool
  | .poav1 _ => true
  | _ => false

/-- `isinstance(value, POAV2)`. -/
def POAVResult.isPOAV2 : POAVResult → Bool
  | .poav2 _ => true
  | _ => false

/-- `isinstance(value, POAVR)`. -/
def POAVResult.isPOAVR : POAVResult → Bool
  | .poavr _ => true
  | _ => false

/-- The attachment-slot state of a `POAVAtom` (mixin `POAVAtomMixin`):
the `_POAV1`, `_POAV2`, `_POAVR` attributes, `None` until assigned. -/
structure POAVAtom where
  poav1 : Option POAVResult
  poav2 : Option POAVResult
  poavr : Option POAVResult

namespace POAVAtom

/-- `POAVAtom.__init__`: all three slots start as `None`. -/
def init : POAVAtom := ⟨none, none, none⟩

/-- Getter `POAVAtom.POAV1`: returns the stored value, or the `None`
marker when the slot was never assigned (it does not raise). -/
def getPOAV1 (a : POAVAtom) : Option POAVResult := a.poav1

/-- Getter `POAVAtom.POAV2`. -/
def getPOAV2 (a : POAVAtom) : Option POAVResult := a.poav2

/-- Getter `POAVAtom.POAVR`. -/
def getPOAVR (a : POAVAtom) : Option POAVResult := a.poavr

/-- Setter `POAVAtom.POAV1`: raises `TypeError` unless the value is a
`POAV1` instance. -/
def setPOAV1 (a : POAVAtom) (v : POAVResult) : Except PyError POAVAtom :=
  if v.isPOAV1 then .ok { a with poav1 := some v } else .error .typeError

/-- Setter `POAVAtom.POAV2`: raises `TypeError` unless the value is a
`POAV2` instance. -/
def setPOAV2 (a : POAVAtom) (v : POAVResult) : Except PyError POAVAtom :=
  if v.isPOAV2 then .ok { a with poav2 := some v } else .error .typeError

/-- Setter `POAVAtom.POAVR`: raises `TypeError` unless the value is a
`POAVR` instance. -/
def setPOAVR (a : POAVAtom) (v : POAVResult) : Except PyError POAVAtom :=
  if v.isPOAVR then .ok { a with poavr := some v } else .error .typeError

end POAVAtom

/-- A `POAV` state after the external angle-computation step has injected
the three angle arrays as three-element lists (bond order preserved). -/
def POAV.withAngles (p : POAV) (s1 s2 s3 q1 q2 q3 m1 m2 m3 : ℝ) : POAV :=
  { p with
    sigma_pi_angles := some [s1, s2, s3],
    pyramidalization_angles := some [q1, q2, q3],
    misalignment_angles := some [m1, m2, m3] }

/-- `POAV.todict` with the receiver state threaded explicitly.  The body
of `todict` in the source only reads attributes and builds a fresh dict
(`np.degrees` allocates new arrays); it contains no assignment to `self`,
so the state handed back to the caller is the state received. -/
def POAV.todictS (p : POAV) (rad2deg : Bool) : Option POAVDict × POAV :=
  (p.todict rad2deg, p)

/-- `POAV1.todict` with the receiver state threaded explicitly; like the
base method it performs no attribute assignment. -/
def POAV1.todictS (p : POAV) (rad2deg : Bool) : Option POAV1Dict × POAV :=
  (POAV1.todict p rad2deg, p)

/-- `POAV2.todict` with the receiver state threaded explicitly; like the
base method it performs no attribute assignment. -/
def POAV2.todictS (q : POAV2) (rad2deg : Bool) : Option POAV2Dict × POAV2 :=
  (q.todict rad2deg, q)

/-!  ## Theorems  -/

/-- C3: for every `POAV` instance on which any of the three angle arrays
is still unset, `todict` fails (the Python code raises when it touches
the `None` array); likewise reading `POAV1.m` before `sigma_pi_angles`
is set fails. -/
theorem todict_missing_angles_fails :
    (∀ (p : POAV) (r : Bool),
        p.sigma_pi_angles = none ∨ p.pyramidalization_angles = none ∨
          p.misalignment_angles = none → p.todict r = none)
      ∧ ∀ p : POAV, p.sigma_pi_angles = none → POAV1.m p = none := by
  constructor
  · intro p r h
    rcases h with h | h | h
    · simp [POAV.todict, h]
    · cases hs : p.sigma_pi_angles <;> simp [POAV.todict, h, hs]
    · cases hs : p.sigma_pi_angles <;> cases hq : p.pyramidalization_angles <;>
        simp [POAV.todict, h, hs, hq]
  · intro p h
    simp [POAV1.m, h]

/-- C3 witness: a freshly constructed instance has no angle arrays set,
and on it `todict` and `POAV1.m` indeed fail. -/
theorem todict_missing_angles_fails_witness :
    (POAV.init ⟨1, 0, 0⟩ ⟨0, 1, 0⟩ ⟨0, 0, 1⟩).todict false = none
      ∧ POAV1.m (POAV.init ⟨1, 0, 0⟩ ⟨0, 1, 0⟩ ⟨0, 0, 1⟩) = none :=
  ⟨todict_missing_angles_fails.1 _ false (Or.inl rfl),
   todict_missing_angles_fails.2 _ rfl⟩

/-- C4 (amended): the angle-array setters accept ANY list — no length
check is performed, so 2-, 3- and 4-element lists all succeed — and
reject non-list values with `TypeError`. -/
theorem angle_setters_accept_any_list (p : POAV) (l : List ℝ) (r : ℝ) :
    p.set_sigma_pi_angles (.list l) = .ok { p with sigma_pi_angles := some l }
      ∧ p.set_pyramidalization_angles (.list l) =
          .ok { p with pyramidalization_angles := some l }
      ∧ p.set_misalignment_angles (.list l) =
          .ok { p with misalignment_angles := some l }
      ∧ p.set_sigma_pi_angles (.num r) = .error .typeError
      ∧ p.set_pyramidalization_angles (.num r) = .error .typeError
      ∧ p.set_misalignment_angles (.num r) = .error .typeError :=
  ⟨rfl, rfl, rfl, rfl, rfl, rfl⟩

/-- C4 counterexample: assigning the 2-element list `[1, 2]` (and the
4-element list `[1, 2, 3, 4]`) to `sigma_pi_angles` succeeds, whereas the
claim says any non-3-element sequence raises `ShapeError`. -/
theorem sigma_pi_setter_accepts_two_element_list :
    (POAV.init ⟨1, 0, 0⟩ ⟨0, 1, 0⟩ ⟨0, 0, 1⟩).set_sigma_pi_angles (.list [1, 2]) =
        .ok { POAV.init ⟨1, 0, 0⟩ ⟨0, 1, 0⟩ ⟨0, 0, 1⟩ with
              sigma_pi_angles := some [1, 2] }
      ∧ (POAV.init ⟨1, 0, 0⟩ ⟨0, 1, 0⟩ ⟨0, 0, 1⟩).set_sigma_pi_angles
            (.list [1, 2, 3, 4]) =
        .ok { POAV.init ⟨1, 0, 0⟩ ⟨0, 1, 0⟩ ⟨0, 0, 1⟩ with
              sigma_pi_angles := some [1, 2, 3, 4] } :=
  ⟨rfl, rfl⟩

/-- C8: each attachment-slot setter raises `TypeError` exactly when the
assigned value's runtime class does not match the slot's variant, stores
matching values, and the getters of a fresh atom's never-assigned slots
return the `None` marker rather than raising. -/
theorem attachment_slot_type_check :
    (∀ (a : POAVAtom) (v : POAVResult),
        (v.isPOAV1 = false → a.setPOAV1 v = .error .typeError)
          ∧ (v.isPOAV1 = true → a.setPOAV1 v = .ok { a with poav1 := some v })
          ∧ (v.isPOAV2 = false → a.setPOAV2 v = .error .typeError)
          ∧ (v.isPOAV2 = true → a.setPOAV2 v = .ok { a with poav2 := some v })
          ∧ (v.isPOAVR = false → a.setPOAVR v = .error .typeError)
          ∧ (v.isPOAVR = true → a.setPOAVR v = .ok { a with poavr := some v }))
      ∧ POAVAtom.init.getPOAV1 = none ∧ POAVAtom.init.getPOAV2 = none
      ∧ POAVAtom.init.getPOAVR = none := by
  refine ⟨fun a v => ?_, rfl, rfl, rfl⟩
  refine ⟨fun h => ?_, fun h => ?_, fun h => ?_, fun h => ?_, fun h => ?_,
    fun h => ?_⟩ <;>
  simp [POAVAtom.setPOAV1, POAVAtom.setPOAV2, POAVAtom.setPOAVR, h]

/-- C8 witness: assigning a `POAV2` instance to the `POAVR` slot of a
fresh atom raises `TypeError`, while a `POAVR` instance is stored. -/
theorem attachment_slot_type_check_witness :
    POAVAtom.init.setPOAVR
        (.poav2 (POAV2.init ⟨1, 0, 0⟩ ⟨0, 1, 0⟩ ⟨0, 0, 1⟩ 1 1 1)) =
        .error .typeError
      ∧ POAVAtom.init.setPOAVR (.poavr (POAVR.init ⟨1, 0, 0⟩ ⟨0, 1, 0⟩ ⟨0, 0, 1⟩)) =
        .ok { POAVAtom.init with
              poavr := some (.poavr (POAVR.init ⟨1, 0, 0⟩ ⟨0, 1, 0⟩ ⟨0, 0, 1⟩)) } :=
  ⟨(attachment_slot_type_check.1 POAVAtom.init _).2.2.2.2.1 rfl,
   (attachment_slot_type_check.1 POAVAtom.init _).2.2.2.2.2 rfl⟩

/-- C5: with `sigma_pi_angles` set to three values, `POAV1.m` is the
closed form `2 cos^2(mean) / (1 - 3 cos^2(mean))` over the mean of the
three angles and `n = 3 m + 2`; with all three angles equal to `pi/2`,
`m` evaluates to `0` and `n` to `2`. -/
theorem POAV1_m_n_formula :
    (∀ (p : POAV) (a b c : ℝ),
        POAV1.m { p with sigma_pi_angles := some [a, b, c] } =
            some (2 * Real.cos ((a + b + c) / 3) ^ 2 /
              (1 - 3 * Real.cos ((a + b + c) / 3) ^ 2))
          ∧ POAV1.n { p with sigma_pi_angles := some [a, b, c] } =
            some (3 * (2 * Real.cos ((a + b + c) / 3) ^ 2 /
              (1 - 3 * Real.cos ((a + b + c) / 3) ^ 2)) + 2))
      ∧ ∀ p : POAV,
          POAV1.m { p with
              sigma_pi_angles :=
                some [Real.pi / 2, Real.pi / 2, Real.pi / 2] } = some 0
            ∧ POAV1.n { p with
                sigma_pi_angles :=
                  some [Real.pi / 2, Real.pi / 2, Real.pi / 2] } = some 2 := by
  have key : ∀ (p : POAV) (a b c : ℝ),
      POAV1.m { p with sigma_pi_angles := some [a, b, c] } =
        some (2 * Real.cos ((a + b + c) / 3) ^ 2 /
          (1 - 3 * Real.cos ((a + b + c) / 3) ^ 2)) := by
    intro p a b c
    have hsum : (a + (b + (c + 0))) = a + b + c := by ring
    simp [POAV1.m, List.sum_cons, List.sum_nil, hsum]
    rw [show a + (b + c) = a + b + c by ring]
  refine ⟨fun p a b c => ⟨key p a b c, ?_⟩, fun p => ?_⟩
  · simp [POAV1.n, key p a b c]
  · have h0 : (Real.pi / 2 + Real.pi / 2 + Real.pi / 2) / 3 = Real.pi / 2 := by
      ring
    constructor
    · rw [key p (Real.pi / 2) (Real.pi / 2) (Real.pi / 2), h0,
        Real.cos_pi_div_two]
      norm_num
    · rw [POAV1.n, key p (Real.pi / 2) (Real.pi / 2) (Real.pi / 2), h0,
        Real.cos_pi_div_two]
      norm_num

/-- C6: the `_T` stored by `POAVR` equals `R1 * R2 * R3 * T0`, where the
`R_i` are the bond lengths and `T0` is the unit-bond-vector triple
product divided by 6; with all three bond lengths equal to 1 it reduces
to `T0`. -/
theorem POAVR_T_eq_lengths_mul_T0 (b1 b2 b3 : V3) :
    (POAVR.init b1 b2 b3).T =
        b1.mag * b2.mag * b3.mag * (V3.stp b1.unit b2.unit b3.unit / 6)
      ∧ (b1.mag = 1 → b2.mag = 1 → b3.mag = 1 →
          (POAVR.init b1 b2 b3).T = V3.stp b1.unit b2.unit b3.unit / 6) := by
  constructor
  · rfl
  · intro h1 h2 h3
    show b1.mag * b2.mag * b3.mag * (V3.stp b1.unit b2.unit b3.unit / 6) = _
    rw [h1, h2, h3]
    ring

/-- C6 witness: on the orthonormal bond triple all three lengths are 1
and the stored `_T` equals `T0`. -/
theorem POAVR_T_eq_lengths_mul_T0_witness :
    (POAVR.init ⟨1, 0, 0⟩ ⟨0, 1, 0⟩ ⟨0, 0, 1⟩).T =
      V3.stp (V3.unit ⟨1, 0, 0⟩) (V3.unit ⟨0, 1, 0⟩) (V3.unit ⟨0, 0, 1⟩) / 6 :=
  (POAVR_T_eq_lengths_mul_T0 ⟨1, 0, 0⟩ ⟨0, 1, 0⟩ ⟨0, 0, 1⟩).2
    (by norm_num [V3.mag]) (by norm_num [V3.mag]) (by norm_num [V3.mag])

/-- C9: for `POAV1` and `POAVR` instances built from non-zero bond
vectors, the triple product `t` of the representative vectors equals
`6 * T`. -/
theorem t_eq_six_T (b1 b2 b3 : V3)
    (h1 : b1 ≠ V3.zero) (h2 : b2 ≠ V3.zero) (h3 : b3 ≠ V3.zero) :
    (POAV1.init b1 b2 b3).t = 6 * (POAV1.init b1 b2 b3).T
      ∧ (POAVR.init b1 b2 b3).t = 6 * (POAVR.init b1 b2 b3).T := by
  constructor
  · show V3.stp b1.unit b2.unit b3.unit =
      6 * (V3.stp b1.unit b2.unit b3.unit / 6)
    ring
  · show V3.stp (V3.smul b1.mag b1.unit) (V3.smul b2.mag b2.unit)
        (V3.smul b3.mag b3.unit) =
      6 * (b1.mag * b2.mag * b3.mag * (V3.stp b1.unit b2.unit b3.unit / 6))
    simp only [V3.stp, V3.dot, V3.cross, V3.smul, V3.unit, V3.sdiv]
    ring

/-- C9 witness: the orthonormal bond triple consists of non-zero vectors
and on it `t = 6 T` for both variants. -/
theorem t_eq_six_T_witness :
    (POAV1.init ⟨1, 0, 0⟩ ⟨0, 1, 0⟩ ⟨0, 0, 1⟩).t =
        6 * (POAV1.init ⟨1, 0, 0⟩ ⟨0, 1, 0⟩ ⟨0, 0, 1⟩).T
      ∧ (POAVR.init ⟨1, 0, 0⟩ ⟨0, 1, 0⟩ ⟨0, 0, 1⟩).t =
        6 * (POAVR.init ⟨1, 0, 0⟩ ⟨0, 1, 0⟩ ⟨0, 0, 1⟩).T :=
  t_eq_six_T ⟨1, 0, 0⟩ ⟨0, 1, 0⟩ ⟨0, 0, 1⟩
    (by simp [V3.zero]) (by simp [V3.zero]) (by simp [V3.zero])

/-- C2 counterexample: on the coplanar bond triple
`(1,0,0), (0,1,0), (1,1,0)` the triple product `t` is exactly `0`, yet
reading `vpi` does not fail — the unguarded division runs and returns a
vector (the zero vector under the exact-arithmetic division-by-zero
convention; Inf/NaN under numpy).  Likewise a `POAV2` built from three
right angles has `cosa12 * cosa13 = 0`, yet reading `n1` returns a
number.  No `DegenerateGeometryError` is raised anywhere. -/
theorem degenerate_geometry_no_error_counterexample :
    (POAV.init ⟨1, 0, 0⟩ ⟨0, 1, 0⟩ ⟨1, 1, 0⟩).t = 0
      ∧ (POAV.init ⟨1, 0, 0⟩ ⟨0, 1, 0⟩ ⟨1, 1, 0⟩).vpi = V3.zero
      ∧ (POAV2.init ⟨1, 0, 0⟩ ⟨0, 1, 0⟩ ⟨0, 0, 1⟩ (Real.pi / 2) (Real.pi / 2)
            (Real.pi / 2)).cosa12 *
          (POAV2.init ⟨1, 0, 0⟩ ⟨0, 1, 0⟩ ⟨0, 0, 1⟩ (Real.pi / 2) (Real.pi / 2)
            (Real.pi / 2)).cosa13 = 0
      ∧ (POAV2.init ⟨1, 0, 0⟩ ⟨0, 1, 0⟩ ⟨0, 0, 1⟩ (Real.pi / 2) (Real.pi / 2)
            (Real.pi / 2)).n1 = 0 := by
  have ht : (POAV.init ⟨1, 0, 0⟩ ⟨0, 1, 0⟩ ⟨1, 1, 0⟩).t = 0 := by
    simp [POAV.init, POAV.t, V3.stp, V3.dot, V3.cross]
  refine ⟨ht, ?_, ?_, ?_⟩
  · rw [POAV.vpi, ht]
    simp [V3.sdiv, V3.zero]
  · simp [POAV2.init, Real.cos_pi_div_two]
  · simp [POAV2.init, POAV2.n1, Real.cos_pi_div_two]

/-- C2 (amended): no degeneracy check exists.  When `t = 0` reading
`vpi` performs the division anyway and yields a substituted value (the
zero vector in this exact-arithmetic embedding; Inf/NaN under numpy), and
when a cosine-product denominator is `0` reading `n1`, `n2` or `n3`
yields a substituted number instead of raising. -/
theorem degenerate_division_substitutes :
    (∀ p : POAV, p.t = 0 → p.vpi = V3.zero)
      ∧ (∀ q : POAV2, q.cosa12 * q.cosa13 = 0 → q.n1 = 0)
      ∧ (∀ q : POAV2, q.cosa12 * q.cosa23 = 0 → q.n2 = 0)
      ∧ (∀ q : POAV2, q.cosa23 * q.cosa13 = 0 → q.n3 = 0) := by
  refine ⟨fun p h => ?_, fun q h => ?_, fun q h => ?_, fun q h => ?_⟩
  · rw [POAV.vpi, h]
    simp [V3.sdiv, V3.zero]
  · simp [POAV2.n1, h]
  · simp [POAV2.n2, h]
  · simp [POAV2.n3, h]

/-- C2 amended-claim witness: concrete degenerate inputs on which the
unguarded divisions return substituted values. -/
theorem degenerate_division_substitutes_witness :
    (POAV.init ⟨2, 0, 0⟩ ⟨0, 2, 0⟩ ⟨2, 2, 0⟩).vpi = V3.zero
      ∧ (POAV2.init ⟨1, 0, 0⟩ ⟨0, 1, 0⟩ ⟨0, 0, 1⟩ (Real.pi / 2) (Real.pi / 3)
            (Real.pi / 3)).n1 = 0
      ∧ (POAV2.init ⟨1, 0, 0⟩ ⟨0, 1, 0⟩ ⟨0, 0, 1⟩ (Real.pi / 2) (Real.pi / 3)
            (Real.pi / 3)).n2 = 0
      ∧ (POAV2.init ⟨1, 0, 0⟩ ⟨0, 1, 0⟩ ⟨0, 0, 1⟩ (Real.pi / 3) (Real.pi / 2)
            (Real.pi / 2)).n3 = 0 :=
  ⟨degenerate_division_substitutes.1 _
      (by simp [POAV.init, POAV.t, V3.stp, V3.dot, V3.cross]),
   degenerate_division_substitutes.2.1 _
      (by simp [POAV2.init, Real.cos_pi_div_two]),
   degenerate_division_substitutes.2.2.1 _
      (by simp [POAV2.init, Real.cos_pi_div_two]),
   degenerate_division_substitutes.2.2.2 _
      (by simp [POAV2.init, Real.cos_pi_div_two])⟩

/-- C1: for a `POAV2` built from a valid angle triple (each pairwise
angle in `(0, pi)`, satisfying the spherical-triangle inequalities) with
all denominators non-zero, the combined hybridization index satisfies
`1/(1+n1) + 1/(1+n2) + 1/(1+n3) = 1/(1+m)`. -/
theorem POAV2_hybridization_identity (b1 b2 b3 : V3) (a12 a13 a23 : ℝ)
    (h12l : 0 < a12) (h12u : a12 < Real.pi)
    (h13l : 0 < a13) (h13u : a13 < Real.pi)
    (h23l : 0 < a23) (h23u : a23 < Real.pi)
    (htri1 : a12 < a13 + a23) (htri2 : a13 < a12 + a23)
    (htri3 : a23 < a12 + a13) (htri4 : a12 + a13 + a23 < 2 * Real.pi)
    (hn1 : 1 + (POAV2.init b1 b2 b3 a12 a13 a23).n1 ≠ 0)
    (hn2 : 1 + (POAV2.init b1 b2 b3 a12 a13 a23).n2 ≠ 0)
    (hn3 : 1 + (POAV2.init b1 b2 b3 a12 a13 a23).n3 ≠ 0)
    (hsum : 1 / (1 + (POAV2.init b1 b2 b3 a12 a13 a23).n1) +
        1 / (1 + (POAV2.init b1 b2 b3 a12 a13 a23).n2) +
        1 / (1 + (POAV2.init b1 b2 b3 a12 a13 a23).n3) ≠ 0) :
    1 / (1 + (POAV2.init b1 b2 b3 a12 a13 a23).n1) +
        1 / (1 + (POAV2.init b1 b2 b3 a12 a13 a23).n2) +
        1 / (1 + (POAV2.init b1 b2 b3 a12 a13 a23).n3) =
      1 / (1 + (POAV2.init b1 b2 b3 a12 a13 a23).m) := by
  set q := POAV2.init b1 b2 b3 a12 a13 a23 with hq
  have hm : 1 + q.m =
      1 / (1 / (1 + q.n1) + 1 / (1 + q.n2) + 1 / (1 + q.n3)) := by
    simp only [POAV2.m]
    ring
  rw [hm, one_div_one_div]

/-- C1 witness: the ideal planar-sp2 angle triple (all three pairwise
angles `pi/3` apart from symmetry) is valid, has all denominators
non-zero, and satisfies the identity. -/
theorem POAV2_hybridization_identity_witness :
    1 / (1 + (POAV2.init ⟨1, 0, 0⟩ ⟨0, 1, 0⟩ ⟨0, 0, 1⟩ (Real.pi / 3)
          (Real.pi / 3) (Real.pi / 3)).n1) +
        1 / (1 + (POAV2.init ⟨1, 0, 0⟩ ⟨0, 1, 0⟩ ⟨0, 0, 1⟩ (Real.pi / 3)
          (Real.pi / 3) (Real.pi / 3)).n2) +
        1 / (1 + (POAV2.init ⟨1, 0, 0⟩ ⟨0, 1, 0⟩ ⟨0, 0, 1⟩ (Real.pi / 3)
          (Real.pi / 3) (Real.pi / 3)).n3) =
      1 / (1 + (POAV2.init ⟨1, 0, 0⟩ ⟨0, 1, 0⟩ ⟨0, 0, 1⟩ (Real.pi / 3)
          (Real.pi / 3) (Real.pi / 3)).m) := by
  have hpi := Real.pi_pos
  refine POAV2_hybridization_identity ⟨1, 0, 0⟩ ⟨0, 1, 0⟩ ⟨0, 0, 1⟩
    (Real.pi / 3) (Real.pi / 3) (Real.pi / 3)
    (by linarith) (by linarith) (by linarith) (by linarith) (by linarith)
    (by linarith) (by linarith) (by linarith) (by linarith) (by linarith)
    ?_ ?_ ?_ ?_
  · simp [POAV2.init, POAV2.n1, Real.cos_pi_div_three]
    norm_num
  · simp [POAV2.init, POAV2.n2, Real.cos_pi_div_three]
    norm_num
  · simp [POAV2.init, POAV2.n3, Real.cos_pi_div_three]
    norm_num
  · simp [POAV2.init, POAV2.n1, POAV2.n2, POAV2.n3, Real.cos_pi_div_three]
    norm_num

/-- C7: on an instance with all three angle arrays set, every angle value
of the `rad2deg := true` mapping equals the corresponding value of the
`rad2deg := false` mapping times `180 / pi`, and the non-angle keys
(`bond1..3`, `T`, `H`, `A`) are identical between the two mappings. -/
theorem todict_rad2deg_scaling (p : POAV) (s1 s2 s3 q1 q2 q3 m1 m2 m3 : ℝ) :
    ∃ d dd : POAVDict,
      (p.withAngles s1 s2 s3 q1 q2 q3 m1 m2 m3).todict false = some d
        ∧ (p.withAngles s1 s2 s3 q1 q2 q3 m1 m2 m3).todict true = some dd
        ∧ dd.sigma_pi_angle1 = d.sigma_pi_angle1 * (180 / Real.pi)
        ∧ dd.sigma_pi_angle2 = d.sigma_pi_angle2 * (180 / Real.pi)
        ∧ dd.sigma_pi_angle3 = d.sigma_pi_angle3 * (180 / Real.pi)
        ∧ dd.pyramidalization_angle1 = d.pyramidalization_angle1 * (180 / Real.pi)
        ∧ dd.pyramidalization_angle2 = d.pyramidalization_angle2 * (180 / Real.pi)
        ∧ dd.pyramidalization_angle3 = d.pyramidalization_angle3 * (180 / Real.pi)
        ∧ dd.misalignment_angle1 = d.misalignment_angle1 * (180 / Real.pi)
        ∧ dd.misalignment_angle2 = d.misalignment_angle2 * (180 / Real.pi)
        ∧ dd.misalignment_angle3 = d.misalignment_angle3 * (180 / Real.pi)
        ∧ dd.bond1 = d.bond1 ∧ dd.bond2 = d.bond2 ∧ dd.bond3 = d.bond3
        ∧ dd.T = d.T ∧ dd.H = d.H ∧ dd.A = d.A :=
  ⟨_, _, rfl, rfl, rfl, rfl, rfl, rfl, rfl, rfl, rfl, rfl, rfl, rfl, rfl, rfl,
   rfl, rfl, rfl⟩

/-- C10: calling `todict` (either `rad2deg` value, any variant) leaves
the instance unchanged — the bond vectors, representative vectors, stored
`T` and the three angle arrays are the same before and after — and two
successive calls return equal mappings. -/
theorem todict_preserves_state (p : POAV) (q : POAV2) (r : Bool) :
    ((POAV.todictS p r).2.b1 = p.b1 ∧ (POAV.todictS p r).2.b2 = p.b2
        ∧ (POAV.todictS p r).2.b3 = p.b3 ∧ (POAV.todictS p r).2.v1 = p.v1
        ∧ (POAV.todictS p r).2.v2 = p.v2 ∧ (POAV.todictS p r).2.v3 = p.v3
        ∧ (POAV.todictS p r).2.T = p.T
        ∧ (POAV.todictS p r).2.sigma_pi_angles = p.sigma_pi_angles
        ∧ (POAV.todictS p r).2.pyramidalization_angles =
            p.pyramidalization_angles
        ∧ (POAV.todictS p r).2.misalignment_angles = p.misalignment_angles)
      ∧ (POAV.todictS ((POAV.todictS p r).2) r).1 = (POAV.todictS p r).1
      ∧ (POAV1.todictS p r).2 = p
      ∧ (POAV1.todictS ((POAV1.todictS p r).2) r).1 = (POAV1.todictS p r).1
      ∧ (POAV2.todictS q r).2 = q
      ∧ (POAV2.todictS ((POAV2.todictS q r).2) r).1 = (POAV2.todictS q r).1 :=
  ⟨⟨rfl, rfl, rfl, rfl, rfl, rfl, rfl, rfl, rfl, rfl⟩, rfl, rfl, rfl, rfl, rfl⟩

end

end SkNano
